import Mathlib

/-!
Verification development for the ClearScript V8 native bridge layer
(`src/ClearScriptV8/ClearScriptV8Native.h`).  The repository material under
`src/` is a single aggregation header: it only lists the declarations of the
bridge (value representation, holders, isolate/context wrappers, exception
translation, split-proxy dispatch, script/byte-code caching).  The bodies of
those components are not under `src/`, so every definition below is modelled
from the specification's description of the boundary contract, and the claims
are settled against these models.
-/

/-- Modelled from the spec: the `V8Value` discriminated union (spec section 3),
over exactly the kinds undefined, null, boolean, number, string,
engine-object-reference and host-object-reference.  The number payload is the
raw 64-bit pattern of the engine's IEEE double, so that marshaling can be
stated as bit-preserving without floating-point arithmetic; the string payload
is its sequence of 16-bit code units.  The body `V8Value.h` is not under
`src/`. -/
inductive V8Value where
  | undefined : V8Value
  | nullValue : V8Value
  | boolean (b : Bool) : V8Value
  | number (bits : Fin (2 ^ 64)) : V8Value
  | string (units : List (Fin (2 ^ 16))) : V8Value
  | v8Object (handle : Nat) : V8Value
  | hostObject (handle : Nat) : V8Value
deriving DecidableEq

/-- Modelled from the spec: the seven kinds of the `V8Value` union. -/
inductive V8ValueKind where
  | undefinedKind : V8ValueKind
  | nullKind : V8ValueKind
  | booleanKind : V8ValueKind
  | numberKind : V8ValueKind
  | stringKind : V8ValueKind
  | v8ObjectKind : V8ValueKind
  | hostObjectKind : V8ValueKind
deriving DecidableEq

/-- The kind discriminant of a `V8Value`. -/
def kindOf : V8Value → V8ValueKind
  | .undefined => .undefinedKind
  | .nullValue => .nullKind
  | .boolean _ => .booleanKind
  | .number _ => .numberKind
  | .string _ => .stringKind
  | .v8Object _ => .v8ObjectKind
  | .hostObject _ => .hostObjectKind

/-- The explicit enumeration of the kinds of the `V8Value` union. -/
def allKinds : List V8ValueKind :=
  [.undefinedKind, .nullKind, .booleanKind, .numberKind, .stringKind,
   .v8ObjectKind, .hostObjectKind]

/-- A kind is primitive when it is not one of the two object-reference
kinds. -/
def isPrimitiveKind : V8ValueKind → Bool
  | .v8ObjectKind => false
  | .hostObjectKind => false
  | _ => true

/-- A `V8Value` is primitive when its kind is. -/
def isPrimitive (v : V8Value) : Bool :=
  isPrimitiveKind (kindOf v)

/-- Modelled from the spec: the host-visible wire form of a value
(`V8ValueWireData`, not under `src/`).  Primitive payloads travel by value;
object references travel as holder-backed handles rather than raw
pointers (spec section 4.2). -/
inductive V8ValueWireData where
  | undefined : V8ValueWireData
  | nullValue : V8ValueWireData
  | boolean (b : Bool) : V8ValueWireData
  | number (bits : Fin (2 ^ 64)) : V8ValueWireData
  | string (units : List (Fin (2 ^ 16))) : V8ValueWireData
  | v8ObjectHandle (holder : Nat) : V8ValueWireData
  | hostObjectHandle (holder : Nat) : V8ValueWireData
deriving DecidableEq

/-- Modelled from the spec: marshaling a native value into its wire form,
copying primitive payloads bit-for-bit and promoting object references into
holder handles (spec section 4.2; the marshaling bodies are not under
`src/`). -/
def toWireData : V8Value → V8ValueWireData
  | .undefined => .undefined
  | .nullValue => .nullValue
  | .boolean b => .boolean b
  | .number bits => .number bits
  | .string units => .string units
  | .v8Object h => .v8ObjectHandle h
  | .hostObject h => .hostObjectHandle h

/-- Modelled from the spec: marshaling a wire value back into the native
representation (spec section 4.2). -/
def fromWireData : V8ValueWireData → V8Value
  | .undefined => .undefined
  | .nullValue => .nullValue
  | .boolean b => .boolean b
  | .number bits => .number bits
  | .string units => .string units
  | .v8ObjectHandle h => .v8Object h
  | .hostObjectHandle h => .hostObject h

/-- Modelled from the spec: the exception record (`V8Exception` /
`HostException`, not under `src/`) carrying message and stack text across the
boundary (spec section 3). -/
structure V8Exception where
  message : String
  stackText : String
deriving DecidableEq

/-- Modelled from the spec: the outcome of running a script inside the
engine: either a completed value or a thrown error with its message and stack
text (spec sections 7 and 8). -/
inductive EngineOutcome where
  | completed (v : V8Value) : EngineOutcome
  | thrown (message : String) (stackText : String) : EngineOutcome

/-- Modelled from the spec: boundary-crossing script execution.  The engine's
own behavior is an external collaborator, abstracted as `engineRun`; the
bridge captures an engine throw as an exception record and surfaces it to the
host, never letting it escape as a native fault (spec section 7). -/
def executeScript (engineRun : Nat → EngineOutcome) (script : Nat) :
    Except V8Exception V8Value :=
  match engineRun script with
  | .completed v => Except.ok v
  | .thrown m st => Except.error { message := m, stackText := st }

/-- Modelled from the spec: the state of one reference-counted holder
(`RefCount` / `SharedPtr`, not under `src/`): the number of live owning
references and the number of times the underlying engine resource has been
released (spec sections 3 and 5). -/
structure RefCountState where
  count : Nat
  destroyCount : Nat
deriving DecidableEq

/-- Taking an additional owning reference increments the count. -/
def addRef (s : RefCountState) : RefCountState :=
  { s with count := s.count + 1 }

/-- Modelled from the spec: one atomic release of an owning reference.  When
the last reference is released the underlying engine resource is released
once (spec section 3); a release with no live reference is a no-op in the
model. -/
def release (s : RefCountState) : RefCountState :=
  match s.count with
  | 0 => s
  | 1 => { count := 0, destroyCount := s.destroyCount + 1 }
  | n + 2 => { count := n + 1, destroyCount := s.destroyCount }

/-- Iterated releases on a single holder. -/
def releaseIter : Nat → RefCountState → RefCountState
  | 0, s => s
  | n + 1, s => releaseIter n (release s)

/-- Modelled from the spec: a schedule of concurrent releases.  Each owning
thread performs one atomic release; because each release is atomic, an
interleaving of the threads is a sequence listing which thread's release
executes at each step (spec section 5). -/
def runSchedule : List Nat → RefCountState → RefCountState
  | [], s => s
  | _ :: rest, s => runSchedule rest (release s)

/-- Modelled from the spec: copying a value in the presence of a per-handle
reference-count table.  A primitive is copied by value and leaves every
reference count untouched; an object reference takes a new owning reference
on its handle's holder (spec section 3). -/
def copyValue (rc : Nat → RefCountState) (v : V8Value) :
    (Nat → RefCountState) × V8Value :=
  match v with
  | .v8Object h => (fun i => if i = h then addRef (rc i) else rc i, .v8Object h)
  | .hostObject h => (fun i => if i = h then addRef (rc i) else rc i, .hostObject h)
  | w => (rc, w)

/-- Modelled from the spec: the liveness bookkeeping of the bridge
(`V8Isolate` / `V8Context` / `V8IsolateImpl` / `V8ContextImpl` /
`V8WeakContextBinding`, not under `src/`): which isolates and which contexts
are currently alive, indexed by identifier (spec sections 3 and 4.1). -/
structure BridgeState where
  isolateAlive : Nat → Bool
  contextAlive : Nat → Bool

/-- Modelled from the spec: explicit isolate teardown marks the isolate
dead (spec section 4.1). -/
def tearDownIsolate (s : BridgeState) (id : Nat) : BridgeState :=
  { s with isolateAlive := fun i => if i = id then false else s.isolateAlive i }

/-- Modelled from the spec: explicit context teardown marks the context
dead (spec section 4.1). -/
def tearDownContext (s : BridgeState) (id : Nat) : BridgeState :=
  { s with contextAlive := fun i => if i = id then false else s.contextAlive i }

/-- Modelled from the spec: a holder-backed handle to an engine-side object
(`V8ObjectHolder` / `V8ObjectHolderImpl`, not under `src/`), recording which
isolate and context produced it (spec section 3). -/
structure V8ObjectHolder where
  isolateId : Nat
  contextId : Nat
  handle : Nat

/-- Modelled from the spec: the operations a host may perform through an
object holder: get/set via string or integer keys, and invocation (spec
section 6). -/
inductive HolderOp where
  | getByName (key : String) : HolderOp
  | setByName (key : String) (v : V8Value) : HolderOp
  | getByIndex (index : Nat) : HolderOp
  | setByIndex (index : Nat) (v : V8Value) : HolderOp
  | invoke (args : List V8Value) : HolderOp

/-- A holder is valid only while both its isolate and its context are
alive. -/
def holderValid (s : BridgeState) (h : V8ObjectHolder) : Bool :=
  s.isolateAlive h.isolateId && s.contextAlive h.contextId

/-- The error record returned when a holder is used after the isolate or
context behind it has been torn down. -/
def useAfterTeardownError : V8Exception :=
  { message := "The V8 runtime has been destroyed", stackText := "" }

/-- Modelled from the spec: performing an operation through a holder.  The
engine-side effect of a valid operation is an external collaborator,
abstracted as `engineApply`; a holder whose isolate or context has been torn
down fails safely with an error record instead of touching the destroyed
resource (spec sections 3 and 8). -/
def performHolderOp (engineApply : V8ObjectHolder → HolderOp → V8Value)
    (s : BridgeState) (h : V8ObjectHolder) (op : HolderOp) :
    Except V8Exception V8Value :=
  if holderValid s h then Except.ok (engineApply h op)
  else Except.error useAfterTeardownError

/-- Modelled from the spec: a cached compiled script (`V8ScriptHolder` /
`V8ScriptHolderImpl`, not under `src/`): the engine version the byte code was
compiled against, and the byte code itself as an opaque byte sequence (spec
sections 4.4 and 6). -/
structure V8ScriptHolder where
  cacheVersion : Nat
  byteCode : List Nat
deriving DecidableEq

/-- Modelled from the spec: the script cache, keyed by script source identity
and engine version (spec section 4.4). -/
def cacheLookup (cache : List ((Nat × Nat) × V8ScriptHolder))
    (key : Nat × Nat) : Option V8ScriptHolder :=
  match cache with
  | [] => none
  | (k, entry) :: rest => if k = key then some entry else cacheLookup rest key

/-- Modelled from the spec: obtaining byte code for a compilation request
(`V8CacheTypes` machinery, not under `src/`).  `compileAt ver src` is the
engine's deterministic full compilation of source `src` at engine version
`ver`; `compatible` is the engine's version-compatibility check.  A cache
miss performs full compilation; a cache hit is validated against engine
version compatibility before use, falling back to full recompilation on
mismatch (spec section 4.4).  The Bool in the result records whether full
compilation was performed. -/
def compileWithCache (compileAt : Nat → Nat → List Nat)
    (compatible : Nat → Nat → Bool)
    (cache : List ((Nat × Nat) × V8ScriptHolder))
    (sourceId engineVersion : Nat) : List Nat × Bool :=
  match cacheLookup cache (sourceId, engineVersion) with
  | none => (compileAt engineVersion sourceId, true)
  | some entry =>
    if compatible entry.cacheVersion engineVersion then (entry.byteCode, false)
    else (compileAt engineVersion sourceId, true)

/-- A cache is well formed when every stored byte stream is the engine's own
compilation of the keyed source at the entry's recorded version. -/
def CacheWellFormed (compileAt : Nat → Nat → List Nat)
    (cache : List ((Nat × Nat) × V8ScriptHolder)) : Prop :=
  ∀ ke ∈ cache, ke.2.byteCode = compileAt ke.2.cacheVersion ke.1.1

/-- Modelled from the spec: the outcome of a cross-boundary invocation: the
callee either succeeds with a value or fails with an exception record (spec
section 4.3). -/
inductive InvocationOutcome where
  | success (v : V8Value) : InvocationOutcome
  | failure (e : V8Exception) : InvocationOutcome

/-- Modelled from the spec: the call table by which the managed host invokes
engine-side operations (`V8SplitProxyNative`, not under `src/`). -/
structure V8SplitProxyNative where
  methodTable : Nat → List V8Value → InvocationOutcome

/-- Modelled from the spec: the call table by which the engine invokes
host-side operations (`V8SplitProxyManaged`, not under `src/`). -/
structure V8SplitProxyManaged where
  methodTable : Nat → List V8Value → InvocationOutcome

/-- Translating a callee outcome into what the caller receives: a value, or
the captured exception record — never anything else. -/
def dispatchOutcome : InvocationOutcome → Except V8Exception V8Value
  | .success v => Except.ok v
  | .failure e => Except.error e

/-- Modelled from the spec: a managed-invokes-native call dispatched through
the split proxy; the call returns its outcome to the caller synchronously
(spec section 4.3). -/
def invokeNative (p : V8SplitProxyNative) (method : Nat)
    (args : List V8Value) : Except V8Exception V8Value :=
  dispatchOutcome (p.methodTable method args)

/-- Modelled from the spec: a native-invokes-managed call dispatched through
the split proxy (spec section 4.3). -/
def invokeManaged (p : V8SplitProxyManaged) (method : Nat)
    (args : List V8Value) : Except V8Exception V8Value :=
  dispatchOutcome (p.methodTable method args)

/-- Helper: releasing `n` of `n + 1` owning references leaves one live
reference and does not yet release the underlying resource. -/
theorem releaseIter_to_one :
    ∀ n d : Nat,
      releaseIter n { count := n + 1, destroyCount := d } =
        { count := 1, destroyCount := d }
  | 0, _ => rfl
  | n + 1, d => by
    show releaseIter n (release { count := n + 2, destroyCount := d }) = _
    have hstep : release { count := n + 2, destroyCount := d } =
        { count := n + 1, destroyCount := d } := rfl
    rw [hstep]
    exact releaseIter_to_one n d

/-- Helper: releasing all `n + 1` owning references drives the count to zero
and releases the underlying resource exactly once. -/
theorem releaseIter_exhaust :
    ∀ n d : Nat,
      releaseIter (n + 1) { count := n + 1, destroyCount := d } =
        { count := 0, destroyCount := d + 1 }
  | 0, _ => rfl
  | n + 1, d => by
    show releaseIter (n + 1) (release { count := n + 2, destroyCount := d }) = _
    have hstep : release { count := n + 2, destroyCount := d } =
        { count := n + 1, destroyCount := d } := rfl
    rw [hstep]
    exact releaseIter_exhaust n d

/-- Helper: executing a release schedule is the same as iterating the atomic
release once per scheduled thread. -/
theorem runSchedule_eq_releaseIter :
    ∀ (sched : List Nat) (s : RefCountState),
      runSchedule sched s = releaseIter sched.length s
  | [], _ => rfl
  | _ :: rest, s => runSchedule_eq_releaseIter rest (release s)

/-- Helper: a successful cache lookup returns an entry actually stored in the
cache under exactly the requested key. -/
theorem cacheLookup_mem :
    ∀ (cache : List ((Nat × Nat) × V8ScriptHolder)) (key : Nat × Nat)
      (entry : V8ScriptHolder),
      cacheLookup cache key = some entry → (key, entry) ∈ cache
  | [], _, _, h => by simp [cacheLookup] at h
  | (k, e) :: rest, key, entry, h => by
    by_cases hk : k = key
    · subst hk
      simp [cacheLookup] at h
      subst h
      exact List.mem_cons_self _ _
    · have hrest : cacheLookup rest key = some entry := by
        simpa [cacheLookup, hk] using h
      exact List.mem_cons_of_mem _ (cacheLookup_mem rest key entry hrest)

/-- C1: after tearing down the isolate (or the context) behind a holder,
every subsequent operation performed through that holder is detected and
fails safely with an error record instead of operating on the destroyed
resource — for every holder, every operation, and every prior bridge
state. -/
theorem holder_use_after_teardown_fails
    (engineApply : V8ObjectHolder → HolderOp → V8Value)
    (s : BridgeState) (h : V8ObjectHolder) (op : HolderOp) :
    performHolderOp engineApply (tearDownIsolate s h.isolateId) h op =
        Except.error useAfterTeardownError ∧
      performHolderOp engineApply (tearDownContext s h.contextId) h op =
        Except.error useAfterTeardownError := by
  constructor
  · simp [performHolderOp, holderValid, tearDownIsolate]
  · simp [performHolderOp, holderValid, tearDownContext]

/-- C2: every script execution in which the engine throws is captured as an
exception record whose message text equals the original engine-side message
and surfaced to the host; every execution yields either a value or such a
record, so no engine error crosses the boundary as an uncatchable native
fault. -/
theorem engine_error_surfaced (engineRun : Nat → EngineOutcome) (script : Nat) :
    (∃ v, engineRun script = .completed v ∧
        executeScript engineRun script = Except.ok v) ∨
      (∃ m st, engineRun script = .thrown m st ∧
        executeScript engineRun script =
          Except.error { message := m, stackText := st }) := by
  cases hrun : engineRun script with
  | completed v => exact Or.inl ⟨v, rfl, by simp [executeScript, hrun]⟩
  | thrown m st => exact Or.inr ⟨m, st, rfl, by simp [executeScript, hrun]⟩

/-- C3: marshaling a primitive value (undefined, null, boolean, number, or
string) across the native/managed boundary and back yields a value equal to
the original; the number's 64-bit pattern and the string's code-unit
sequence are carried unchanged. -/
theorem primitive_roundtrip (v : V8Value) (hp : isPrimitive v = true) :
    fromWireData (toWireData v) = v := by
  cases v <;> rfl

/-- Witness for C3: round-tripping the number with bit pattern 12345 returns
it unchanged. -/
theorem primitive_roundtrip_witness :
    fromWireData (toWireData (V8Value.number ⟨12345, by norm_num⟩)) =
      V8Value.number ⟨12345, by norm_num⟩ :=
  primitive_roundtrip (V8Value.number ⟨12345, by norm_num⟩) rfl

/-- C4: the script cache is keyed by script source identity and engine
version (a successful lookup returns an entry stored under exactly that
key); a cache miss performs full compilation; a cache hit is validated
against engine version compatibility before use, with full recompilation
whenever the check fails and the cached byte code used only when it
passes. -/
theorem compileWithCache_contract (compileAt : Nat → Nat → List Nat)
    (compatible : Nat → Nat → Bool)
    (cache : List ((Nat × Nat) × V8ScriptHolder)) (src ver : Nat) :
    (∀ entry, cacheLookup cache (src, ver) = some entry →
        ((src, ver), entry) ∈ cache) ∧
      (cacheLookup cache (src, ver) = none →
        compileWithCache compileAt compatible cache src ver =
          (compileAt ver src, true)) ∧
      (∀ entry, cacheLookup cache (src, ver) = some entry →
        compatible entry.cacheVersion ver = false →
        compileWithCache compileAt compatible cache src ver =
          (compileAt ver src, true)) ∧
      (∀ entry, cacheLookup cache (src, ver) = some entry →
        compatible entry.cacheVersion ver = true →
        compileWithCache compileAt compatible cache src ver =
          (entry.byteCode, false)) := by
  refine ⟨fun entry hsome => cacheLookup_mem cache (src, ver) entry hsome,
    fun hnone => ?_, fun entry hsome hbad => ?_, fun entry hsome hok => ?_⟩
  · simp [compileWithCache, hnone]
  · simp [compileWithCache, hsome, hbad]
  · simp [compileWithCache, hsome, hok]

/-- Witness for C4: on the concrete cache holding byte code [2, 3] for
source 0 at version 1, a compatible hit returns the cached byte code without
recompiling. -/
theorem compileWithCache_contract_witness :
    compileWithCache (fun _ _ => [9]) (fun a b => a == b)
        [((0, 1), { cacheVersion := 1, byteCode := [2, 3] })] 0 1 =
      ([2, 3], false) :=
  (compileWithCache_contract (fun _ _ => [9]) (fun a b => a == b)
      [((0, 1), { cacheVersion := 1, byteCode := [2, 3] })] 0 1).2.2.2
    { cacheVersion := 1, byteCode := [2, 3] } (by decide) (by decide)

/-- C5: executing byte code obtained from a cache hit whose entry was
compiled against the current engine version is byte-identical to executing a
fresh compile of the same source: the byte code used equals the fresh
compilation output, so the execution results coincide for every input. -/
theorem cache_hit_matches_fresh_compile (compileAt : Nat → Nat → List Nat)
    (compatible : Nat → Nat → Bool)
    (execByteCode : List Nat → Nat → Nat)
    (cache : List ((Nat × Nat) × V8ScriptHolder))
    (src ver input : Nat) (entry : V8ScriptHolder)
    (hwf : CacheWellFormed compileAt cache)
    (hhit : cacheLookup cache (src, ver) = some entry)
    (hver : entry.cacheVersion = ver)
    (hrefl : compatible ver ver = true) :
    (compileWithCache compileAt compatible cache src ver).1 =
        compileAt ver src ∧
      execByteCode (compileWithCache compileAt compatible cache src ver).1
          input =
        execByteCode (compileAt ver src) input := by
  have hmem : ((src, ver), entry) ∈ cache :=
    cacheLookup_mem cache (src, ver) entry hhit
  have hbytes : entry.byteCode = compileAt ver src := by
    have := hwf _ hmem
    simpa [hver] using this
  have hcompat : compatible entry.cacheVersion ver = true := by
    rw [hver]; exact hrefl
  have hres : compileWithCache compileAt compatible cache src ver =
      (entry.byteCode, false) := by
    simp [compileWithCache, hhit, hcompat]
  refine ⟨?_, ?_⟩
  · rw [hres]; exact hbytes
  · rw [hres]; rw [hbytes]

/-- Witness for C5: on a concrete well-formed cache whose entry for source 0
was compiled at the current version 1, the cached byte code and a fresh
compile execute identically. -/
theorem cache_hit_matches_fresh_compile_witness :
    (compileWithCache (fun _ s => [s, s + 1]) (fun a b => a == b)
          [((0, 1), { cacheVersion := 1, byteCode := [0, 1] })] 0 1).1 =
        (fun _ s => [s, s + 1] : Nat → Nat → List Nat) 1 0 ∧
      (fun bc input => bc.sum + input : List Nat → Nat → Nat)
          (compileWithCache (fun _ s => [s, s + 1]) (fun a b => a == b)
            [((0, 1), { cacheVersion := 1, byteCode := [0, 1] })] 0 1).1 5 =
        (fun bc input => bc.sum + input : List Nat → Nat → Nat)
          ((fun _ s => [s, s + 1] : Nat → Nat → List Nat) 1 0) 5 :=
  cache_hit_matches_fresh_compile (fun _ s => [s, s + 1]) (fun a b => a == b)
    (fun bc input => bc.sum + input)
    [((0, 1), { cacheVersion := 1, byteCode := [0, 1] })] 0 1 5
    { cacheVersion := 1, byteCode := [0, 1] }
    (by intro ke hke; simp at hke; subst hke; rfl)
    (by decide) rfl (by decide)

/-- C6: isolate and context teardown are idempotent total operations:
tearing down the same isolate (or the same context) a second time leaves the
bridge state exactly as after the first teardown. -/
theorem teardown_idempotent (s : BridgeState) (id : Nat) :
    tearDownIsolate (tearDownIsolate s id) id = tearDownIsolate s id ∧
      tearDownContext (tearDownContext s id) id = tearDownContext s id := by
  constructor
  · unfold tearDownIsolate
    congr 1
    funext i
    by_cases hi : i = id <;> simp [hi]
  · unfold tearDownContext
    congr 1
    funext i
    by_cases hi : i = id <;> simp [hi]

/-- C7: every cross-boundary call dispatched through the split proxy — in
either direction — returns to its caller synchronously with exactly the
callee's outcome: the success value on success, and the captured exception
record on failure; an uncatchable fault never crosses the boundary. -/
theorem splitproxy_synchronous_capture (pn : V8SplitProxyNative)
    (pm : V8SplitProxyManaged) (method : Nat) (args : List V8Value) :
    ((∃ v, pn.methodTable method args = .success v ∧
        invokeNative pn method args = Except.ok v) ∨
      (∃ e, pn.methodTable method args = .failure e ∧
        invokeNative pn method args = Except.error e)) ∧
      ((∃ v, pm.methodTable method args = .success v ∧
        invokeManaged pm method args = Except.ok v) ∨
      (∃ e, pm.methodTable method args = .failure e ∧
        invokeManaged pm method args = Except.error e)) := by
  constructor
  · cases hn : pn.methodTable method args with
    | success v =>
      exact Or.inl ⟨v, rfl, by simp [invokeNative, dispatchOutcome, hn]⟩
    | failure e =>
      exact Or.inr ⟨e, rfl, by simp [invokeNative, dispatchOutcome, hn]⟩
  · cases hm : pm.methodTable method args with
    | success v =>
      exact Or.inl ⟨v, rfl, by simp [invokeManaged, dispatchOutcome, hm]⟩
    | failure e =>
      exact Or.inr ⟨e, rfl, by simp [invokeManaged, dispatchOutcome, hm]⟩

/-- C8: `V8Value` is a discriminated union over exactly the seven kinds
undefined, null, boolean, number, string, engine-object-reference and
host-object-reference (the kinds are pairwise distinct and every kind is
realized); copying a primitive value is by value and leaves every reference
count untouched; copying an object-reference value takes a new owning
reference on its holder; and releasing the owning references of a holder
releases the underlying engine resource exactly when the last reference is
released. -/
theorem value_union_and_refcount_contract (rc : Nat → RefCountState)
    (v : V8Value) (n d : Nat) :
    allKinds.Nodup ∧
      allKinds.length = 7 ∧
      (∀ k : V8ValueKind, k ∈ allKinds) ∧
      (∀ k : V8ValueKind, ∃ w : V8Value, kindOf w = k) ∧
      (isPrimitive v = true → copyValue rc v = (rc, v)) ∧
      (∀ hd : Nat, v = V8Value.v8Object hd →
        ((copyValue rc v).1 hd).count = (rc hd).count + 1) ∧
      (∀ hd : Nat, v = V8Value.hostObject hd →
        ((copyValue rc v).1 hd).count = (rc hd).count + 1) ∧
      releaseIter n { count := n + 1, destroyCount := d } =
        { count := 1, destroyCount := d } ∧
      releaseIter (n + 1) { count := n + 1, destroyCount := d } =
        { count := 0, destroyCount := d + 1 } := by
  refine ⟨by decide, by decide, fun k => by cases k <;> simp [allKinds],
    fun k => ?_, fun hp => ?_, fun hd hv => ?_, fun hd hv => ?_,
    releaseIter_to_one n d, releaseIter_exhaust n d⟩
  · cases k with
    | undefinedKind => exact ⟨.undefined, rfl⟩
    | nullKind => exact ⟨.nullValue, rfl⟩
    | booleanKind => exact ⟨.boolean true, rfl⟩
    | numberKind => exact ⟨.number 0, rfl⟩
    | stringKind => exact ⟨.string [], rfl⟩
    | v8ObjectKind => exact ⟨.v8Object 0, rfl⟩
    | hostObjectKind => exact ⟨.hostObject 0, rfl⟩
  · cases v with
    | v8Object h => simp [isPrimitive, kindOf, isPrimitiveKind] at hp
    | hostObject h => simp [isPrimitive, kindOf, isPrimitiveKind] at hp
    | undefined => rfl
    | nullValue => rfl
    | boolean b => rfl
    | number bits => rfl
    | string units => rfl
  · subst hv
    simp [copyValue, addRef]
  · subst hv
    simp [copyValue, addRef]

/-- Witness for C8: copying the primitive boolean value leaves the concrete
one-reference table unchanged and yields the same value. -/
theorem value_union_and_refcount_contract_witness :
    copyValue (fun _ => { count := 1, destroyCount := 0 })
        (V8Value.boolean true) =
      (fun _ => { count := 1, destroyCount := 0 }, V8Value.boolean true) :=
  (value_union_and_refcount_contract
      (fun _ => { count := 1, destroyCount := 0 })
      (V8Value.boolean true) 0 0).2.2.2.2.1 rfl

/-- C9: for every interleaving of concurrent releases — every schedule in
which each of the holder's owning threads performs its one atomic release,
in any order — the reference count reaches zero and the underlying resource
is released exactly once. -/
theorem concurrent_release_exactly_once (sched : List Nat) (d : Nat)
    (hne : sched ≠ []) :
    runSchedule sched { count := sched.length, destroyCount := d } =
      { count := 0, destroyCount := d + 1 } := by
  cases sched with
  | nil => exact absurd rfl hne
  | cons t rest =>
    rw [runSchedule_eq_releaseIter]
    exact releaseIter_exhaust rest.length d

/-- Witness for C9: two threads releasing the two references of one holder
in schedule order [0, 1] drive the count to zero and release the resource
once. -/
theorem concurrent_release_exactly_once_witness :
    runSchedule [0, 1] { count := 2, destroyCount := 0 } =
      { count := 0, destroyCount := 1 } :=
  concurrent_release_exactly_once [0, 1] 0 (by decide)
